import Mathlib

/-
  Verification of the vramfs in-memory index and VRAM block engine.

  This file gives a shallow embedding, in Lean 4, of the core of the vramfs
  repository (the OpenCL block pool, the per-block dirty discipline, the
  per-file block map with its read/write/truncate walks, and the FUSE facade
  with its path resolution) and proves or refutes the claims of the
  specification against it.

  Conventions of the embedding:
  - machine integers are modelled as Nat, with explicit reductions modulo
    2 to the 64 and conversions to signed 32-bit values (as Int) exactly where
    the C code can overflow (the block-count computation of increase_pool);
    file offsets and sizes stay plain Nat because the loops of file.cpp only
    ever form sums and differences far below the 63-bit range FUSE can pass;
  - the std::map of populated blocks is modelled as a sorted list of keys;
    erasing from the iterator returned by map.find(k) up to end() removes
    exactly the keys greater or equal to k when k is present and nothing
    otherwise, which is written out intensionally below;
  - device transfers (enqueueReadBuffer / enqueueWriteBuffer) move bytes, not
    index state; at the file level the walks therefore record which slices
    are transferred, while the byte-level behaviour of a single block,
    including the dirty zero-fill discipline, is modelled in full in the
    block section;
  - timestamps are abstract instants (Nat) supplied by the caller, standing
    for util::time().
-/

/- ===================== constants (memory.hpp, errno) ===================== -/

/-- Block size constant from memory.hpp: static const size_t size = 128 * 1024. -/
def block_size : Nat := 131072

/-- Negative errno sentinel for ENOENT (2). -/
def eNOENT : Int := -2

/-- Negative errno sentinel for EPERM (1). -/
def ePERM : Int := -1

/-- Negative errno sentinel for EEXIST (17). -/
def eEXIST : Int := -17

/-- Negative errno sentinel for ENOTDIR (20). -/
def eNOTDIR : Int := -20

/-- Negative errno sentinel for EISDIR (21). -/
def eISDIR : Int := -21

/-- Negative errno sentinel for ENOSPC (28). -/
def eNOSPC : Int := -28

/- ===================== block model (memory.cpp 132-177) ===================== -/

/-- State of one memory::block: the device buffer contents (one byte per list
entry) and the dirty flag. The last_write event only orders device commands
and is not part of the index state. -/
structure Blk where
  buf : List Nat
  dirty : Bool

/-- Construction of a block from the pool (memory.cpp 132-135 pops a buffer
from the free list). The buffer keeps whatever a prior owner left behind,
and dirty starts true (memory.hpp: bool dirty = true). -/
def blkInit (leftover : List Nat) : Blk :=
  { buf := leftover, dirty := true }

/-- Model of clear_buffer (memory.cpp 20-25): the whole buffer is filled with
zeros, either with the native fill primitive or by copying a zero buffer. -/
def clear_buffer_model : List Nat :=
  List.replicate block_size 0

/-- Model of block::read (memory.cpp 141-149): when dirty, the destination is
filled with size zeros and the device buffer is not read; otherwise the bytes
of the region from offset to offset plus size are returned. -/
def blkRead (b : Blk) (off n : Nat) : List Nat :=
  if b.dirty then List.replicate n 0
  else (b.buf.drop off).take n

/-- Model of block::write (memory.cpp 151-173): when dirty and the write does
not cover the whole block, the buffer is first cleared with zeros; then the
source bytes are written at the offset and dirty is cleared. The async flag
only chooses between a blocking write and a copied non-blocking write and
does not change the resulting buffer contents. -/
def blkWrite (b : Blk) (off : Nat) (src : List Nat) : Blk :=
  let base := if b.dirty && (src.length != block_size) then clear_buffer_model else b.buf
  { buf := base.take off ++ src ++ base.drop (off + src.length), dirty := false }

/- ===================== pool model (memory.cpp 98-139) ===================== -/

/-- Conversion of a size_t value (a Nat already reduced modulo 2 to the 64) to
a C int, i.e. reduction modulo 2 to the 32 interpreted as a signed value. -/
def toInt32 (n : Nat) : Int :=
  if n % 4294967296 < 2147483648 then ((n % 4294967296 : Nat) : Int)
  else ((n % 4294967296 : Nat) : Int) - 4294967296

/-- Conversion of a C int back to size_t: reduction modulo 2 to the 64 with
sign extension, as an unsigned Nat. -/
def int32ToSizeT (i : Int) : Nat :=
  (i % 18446744073709551616).toNat

/-- The block count computed by increase_pool (memory.cpp 107):
int block_count = 1 + (size - 1) / block::size, where size is size_t, the
subtraction wraps modulo 2 to the 64, and the final value is narrowed to int. -/
def ip_block_count (size : Nat) : Int :=
  toInt32 ((((size + (18446744073709551616 - 1)) % 18446744073709551616) / block_size + 1)
    % 18446744073709551616)

/-- The allocation loop of increase_pool (memory.cpp 110-119), iterated over
the trip count of the for loop. The oracle tells whether the i-th buffer
creation together with its zero-fill succeeds. On the first failure the loop
returns i * block::size (computed in size_t) and the number of buffers that
were pushed, which equals i because the loop starts at zero. Returning none
means the loop completed. -/
def ipGo (oracle : Nat → Bool) (i : Nat) : Nat → Option (Nat × Nat)
  | 0 => none
  | fuel + 1 =>
    if oracle i then ipGo oracle (i + 1) fuel
    else some ((i * block_size) % 18446744073709551616, i)

/-- Model of increase_pool (memory.cpp 106-122). Returns the byte count the
function reports and the number of buffers pushed onto the free list. On
completion the return value is block_count * block::size with block_count
converted from int to size_t. -/
def increase_pool (oracle : Nat → Bool) (size : Nat) : Nat × Nat :=
  (ipGo oracle 0 (ip_block_count size).toNat).getD
    ((int32ToSizeT (ip_block_count size) * block_size) % 18446744073709551616,
      (ip_block_count size).toNat)

/-- Number of successful allocations before the first failure, starting at
attempt index i, over n attempts. This is the specification-side count used
to state what increase_pool returns. -/
def allocSuccesses (oracle : Nat → Bool) (i : Nat) : Nat → Nat
  | 0 => 0
  | n + 1 => if oracle i then allocSuccesses oracle (i + 1) n + 1 else 0

/- ===================== pool accounting (memory.cpp 98-139) ===================== -/

/-- Pool state: the free list of buffers (identified by id, back of the list
is the top, matching pool.back and pool.push_back on the std::vector), the
total_blocks counter, the buffers owned by live block handles, and a counter
for minting fresh buffer ids. -/
structure PoolSt where
  free : List Nat
  total : Nat
  live : List Nat
  fresh : Nat

/-- Operations touching the pool: growing it with increase_pool, allocating a
block (memory.cpp 124-135: allocate checks the free list and the block
constructor pops its back), and dropping a live block (memory.cpp 137-139:
the destructor pushes the buffer back). -/
inductive PoolOp where
  | grow (oracle : Nat → Bool) (size : Nat)
  | alloc
  | drop (b : Nat)

/-- One pool transition. grow appends the freshly allocated buffers to the
free list and bumps total_blocks by the same count; alloc pops the back of
the free list into the live set when the free list is non-empty and does
nothing otherwise; drop returns the buffer of a live block to the back of
the free list. -/
def pool_step (s : PoolSt) (op : PoolOp) : PoolSt :=
  match op with
  | .grow oracle size =>
    let pushed := (increase_pool oracle size).2
    { free := s.free ++ List.range' s.fresh pushed, total := s.total + pushed,
      live := s.live, fresh := s.fresh + pushed }
  | .alloc =>
    match s.free.getLast? with
    | some b => { free := s.free.dropLast, total := s.total, live := b :: s.live, fresh := s.fresh }
    | none => s
  | .drop b =>
    if s.live.contains b then
      { free := s.free ++ [b], total := s.total, live := s.live.erase b, fresh := s.fresh }
    else s

/-- The pool at startup: empty free list, zero total, no live blocks. -/
def pool_init : PoolSt :=
  { free := [], total := 0, live := [], fresh := 0 }

/-- Running a sequence of pool operations from startup. -/
def pool_run (ops : List PoolOp) : PoolSt :=
  ops.foldl pool_step pool_init

/- ===================== file block map model (file.cpp) ===================== -/

/-- State of a file_t (file.cpp together with the entry_t base fields): the
logical size, the sorted key list of the std::map of populated blocks, the
three timestamps, the mode bits and the owner. Block identities and contents
live on the device side and are not needed by the index-level claims. -/
structure FileSt where
  fsize : Nat
  blocks : List Nat
  atime : Nat
  mtime : Nat
  ctime : Nat
  mode : Nat
  uid : Nat
  gid : Nat

/-- Sorted insertion of a key into the std::map key list (file.cpp 142:
file_blocks with off as key). -/
def insertBlock (off : Nat) : List Nat → List Nat
  | [] => [off]
  | o :: rest =>
    if off < o then off :: o :: rest
    else if off = o then o :: rest
    else o :: insertBlock off rest

/-- The walk of file_t::write (file.cpp 83-106), iterated on a fuel that
bounds the number of loop iterations; each iteration advances the offset by
at least one byte, so a fuel equal to the byte count suffices. For each slice
the loop looks up the block of the aligned start (block_start equals
off / block::size * block::size, and block_off equals off mod block::size),
allocates a missing block from the pool (modelled by the free-buffer count
avail) and breaks when allocation fails. The call block.write itself only
moves bytes to the device and does not change the index state. Returns the
offset reached, the key list and the remaining free-buffer count. -/
def writeGo (blocks : List Nat) (avail off endPos : Nat) : Nat → Nat × List Nat × Nat
  | 0 => (off, blocks, avail)
  | fuel + 1 =>
    if off < endPos then
      let bs := off / block_size * block_size
      let wsize := min (block_size - off % block_size) (endPos - off)
      if blocks.contains bs then
        writeGo blocks avail (off + wsize) endPos fuel
      else if 0 < avail then
        writeGo (insertBlock bs blocks) (avail - 1) (off + wsize) endPos fuel
      else
        (off, blocks, avail)
    else (off, blocks, avail)

/-- The write walk with its canonical fuel. -/
def writeLoop (blocks : List Nat) (avail off endPos : Nat) : Nat × List Nat × Nat :=
  writeGo blocks avail off endPos (endPos - off)

/-- Model of file_t::write (file.cpp 78-118): walk the region, then bump the
size when the offset reached exceeds it, stamp ctime and mtime, and return
minus ENOSPC when the walk stopped early and the total byte count otherwise. -/
def file_write (f : FileSt) (off n avail now : Nat) : Int × FileSt × Nat :=
  let endPos := off + n
  let r := writeLoop f.blocks avail off endPos
  let stop := r.1
  let f2 : FileSt :=
    { fsize := if f.fsize < stop then stop else f.fsize, blocks := r.2.1,
      atime := f.atime, mtime := now, ctime := now,
      mode := f.mode, uid := f.uid, gid := f.gid }
  if stop < endPos then (eNOSPC, f2, r.2.2) else ((n : Int), f2, r.2.2)

/-- The walk of file_t::read (file.cpp 49-71), recorded as the list of slices
(block start, slice length, block populated) that are transferred into the
destination; a missing block zero-fills the slice. The walk reads device
buffers and writes only into the destination, never into the index state. -/
def readGo (blocks : List Nat) (off endPos : Nat) : Nat → List (Nat × Nat × Bool)
  | 0 => []
  | fuel + 1 =>
    if off < endPos then
      let bs := off / block_size * block_size
      let rsize := min (block_size - off % block_size) (endPos - off)
      (bs, rsize, blocks.contains bs) :: readGo blocks (off + rsize) endPos fuel
    else []

/-- Model of file_t::read (file.cpp 41-76) and of the identical vram_read
(vramfs.cpp 486-526): return zero when the offset is at or past the size,
otherwise clamp the count, walk the slices, stamp ctime and atime with the
current time, and return the clamped count. -/
def file_read (f : FileSt) (off n now : Nat) : Nat × List (Nat × Nat × Bool) × FileSt :=
  if f.fsize ≤ off then (0, [], f)
  else
    let n2 := min (f.fsize - off) n
    (n2, readGo f.blocks off (off + n2) n2,
      { fsize := f.fsize, blocks := f.blocks,
        atime := now, mtime := f.mtime, ctime := now,
        mode := f.mode, uid := f.uid, gid := f.gid })

/-- The first block-aligned offset at or beyond off, as computed at the top
of file_t::delete_blocks (file.cpp 151-152). -/
def ceilAlign (off : Nat) : Nat :=
  if off % block_size = 0 then off / block_size * block_size
  else off / block_size * block_size + block_size

/-- Model of file_t::delete_blocks (file.cpp 149-157). The code erases from
the iterator returned by file_blocks.find(start_off) to the end of the map,
so on an ordered map it removes exactly the keys at or beyond start_off when
start_off itself is a key, and removes nothing when find misses, which
happens when the aligned offset falls into a hole of a sparse file. -/
def delete_blocks (blocks : List Nat) (off : Nat) : List Nat :=
  let start := ceilAlign off
  if blocks.contains start then blocks.filter (fun o => decide (o < start)) else blocks

/-- Model of the size setter file_t::size (file.cpp 33-39), the core of
truncate: drop blocks beyond the new size when shrinking, then assign. -/
def file_size_set (f : FileSt) (newSize : Nat) : FileSt :=
  { fsize := newSize,
    blocks := if newSize < f.fsize then delete_blocks f.blocks newSize else f.blocks,
    atime := f.atime, mtime := f.mtime, ctime := f.ctime,
    mode := f.mode, uid := f.uid, gid := f.gid }

/-- A freshly created file: size zero, no blocks, mode 0644 from the file_t
constructor (file.cpp 21-23), timestamps stamped at creation. -/
def fileNew (now uid gid : Nat) : FileSt :=
  { fsize := 0, blocks := [], atime := now, mtime := now, ctime := now,
    mode := 420, uid := uid, gid := gid }

/- ===================== entry tree and facade (src/src/vramfs.cpp) ===================== -/

/-- An entry of the file system index (types.hpp struct entry_t): the dir
flag, the symlink target (empty for files and directories), the mode bits,
the size, the three timestamps, and the children map (unordered_map from name
to entry, modelled as an association list). The variant of an entry is
derived exactly as index_find derives it: a non-empty target makes it a
symlink, otherwise the dir flag decides. -/
inductive EntryT : Type where
  | mk : Bool → String → Nat → Nat → Nat → Nat → Nat → List (String × EntryT) → EntryT

/-- The dir flag of an entry. -/
def EntryT.isDir : EntryT → Bool
  | .mk d _ _ _ _ _ _ _ => d

/-- The symlink target of an entry. -/
def EntryT.target : EntryT → String
  | .mk _ t _ _ _ _ _ _ => t

/-- The mode bits of an entry. -/
def EntryT.mode : EntryT → Nat
  | .mk _ _ m _ _ _ _ _ => m

/-- The size field of an entry. -/
def EntryT.esize : EntryT → Nat
  | .mk _ _ _ s _ _ _ _ => s

/-- The access time of an entry. -/
def EntryT.atime : EntryT → Nat
  | .mk _ _ _ _ a _ _ _ => a

/-- The modification time of an entry. -/
def EntryT.mtime : EntryT → Nat
  | .mk _ _ _ _ _ m _ _ => m

/-- The change time of an entry. -/
def EntryT.ctime : EntryT → Nat
  | .mk _ _ _ _ _ _ c _ => c

/-- The children map of an entry. -/
def EntryT.children : EntryT → List (String × EntryT)
  | .mk _ _ _ _ _ _ _ ch => ch

/-- Lookup of a name in a children map (entry->children.find(part)). -/
def getChild : List (String × EntryT) → String → Option EntryT
  | [], _ => none
  | (k, v) :: rest, n => if k = n then some v else getChild rest n

/-- Insertion or replacement in a children map (parent->children[name] = e). -/
def setChild : List (String × EntryT) → String → EntryT → List (String × EntryT)
  | [], n, e => [(n, e)]
  | (k, v) :: rest, n, e => if k = n then (n, e) :: rest else (k, v) :: setChild rest n e

/-- Splitting behaviour of getline(stream, part, sep) over the contents of a
stringstream: an empty stream yields no parts, a trailing separator yields no
trailing empty part, and doubled separators yield empty parts in between. -/
def getlineGo : List Char → List Char → List String
  | [], acc => [String.mk acc.reverse]
  | c :: rest, acc =>
    if c = '/' then
      String.mk acc.reverse :: (if rest.isEmpty then [] else getlineGo rest [])
    else getlineGo rest (c :: acc)

/-- The list of path components getline produces (vramfs.cpp 139-143). -/
def getlineParts (cs : List Char) : List String :=
  if cs.isEmpty then [] else getlineGo cs []

/-- The traversal loop of index_find (vramfs.cpp 143-155): walk the parts
from the root; an entry with a false dir flag aborts with ENOTDIR, a missing
child aborts with ENOENT. -/
def resolveParts : EntryT → List String → Except Int EntryT
  | e, [] => Except.ok e
  | e, p :: ps =>
    if e.isDir = false then Except.error eNOTDIR
    else
      match getChild e.children p with
      | some c => resolveParts c ps
      | none => Except.error eNOENT

/-- The variant index_find derives for the resolved entry (vramfs.cpp
158-160): 4 for a symlink (non-empty target), 2 for a directory, 1 for a
file, matching the entry_type bit values. -/
def variantOf (e : EntryT) : Nat :=
  if 0 < e.target.length then 4 else if e.isDir = true then 2 else 1

/-- The error chosen by index_find when the filter excludes the variant that
was found (vramfs.cpp 162-172). A result of 0 models falling through to the
final return 0. -/
def find_type_error (actual filter : Nat) : Int :=
  if actual = 1 then
    if filter &&& 4 ≠ 0 then eNOENT
    else if filter &&& 2 ≠ 0 then eISDIR
    else 0
  else if actual = 2 then
    if filter &&& 1 ≠ 0 then eNOTDIR
    else if filter &&& 4 ≠ 0 then ePERM
    else 0
  else ePERM

/-- Model of index_find (vramfs.cpp 132-175): reject an empty filter with
ENOENT, resolve the path components of path.substr(1), and check the variant
of the resolved entry against the filter. -/
def index_find (root : EntryT) (path : String) (filter : Nat) : Except Int EntryT :=
  if filter &&& 7 = 0 then Except.error eNOENT
  else
    match resolveParts root (getlineParts (path.toList.drop 1)) with
    | Except.error err => Except.error err
    | Except.ok e =>
      if variantOf e &&& filter = 0 then
        if find_type_error (variantOf e) filter = 0 then Except.ok e
        else Except.error (find_type_error (variantOf e) filter)
      else Except.ok e

/-- Split at the last slash, on the character list of the path. -/
def lastSlashSplit : List Char → Option (List Char × List Char)
  | [] => none
  | c :: rest =>
    match lastSlashSplit rest with
    | some (d, f) => some (c :: d, f)
    | none => if c = '/' then some ([], rest) else none

/-- Model of util::split_file_path (util.cpp 11-23): split the path at the
last slash into directory and file name; an empty directory part becomes
the root path. -/
def split_file_path (path : String) : String × String :=
  match lastSlashSplit path.toList with
  | none => ("/", path)
  | some (d, f) => (if d.isEmpty then "/" else String.mk d, String.mk f)

/-- Rebuild the tree after updating the entry reached by the given resolved
path with the function f; used to model in-place mutation of the entry that
index_find returned. -/
def updateAt : EntryT → List String → (EntryT → EntryT) → EntryT
  | e, [], f => f e
  | e, p :: ps, f =>
    if e.isDir = false then e
    else
      match getChild e.children p with
      | some c =>
        match e with
        | .mk d t m s a mt c2 ch => .mk d t m s a mt c2 (setChild ch p (updateAt c ps f))
      | none => e

/-- Stamp ctime and mtime of a parent directory with the current time and
insert a child, as vram_create, vram_mkdir and vram_symlink do on the parent
(vramfs.cpp 323-325 and make_entry at 106-117). -/
def touchAndInsert (e : EntryT) (now : Nat) (name : String) (child : EntryT) : EntryT :=
  match e with
  | .mk d t m s a _ _ ch => .mk d t m s a now now (setChild ch name child)

/-- Model of vram_create (vramfs.cpp 309-333): fail with EEXIST when any
entry already exists at the path, otherwise resolve the parent directory,
stamp its times, and insert a fresh file entry with mode DEFAULT_FILE_MODE
(0664, vramfs.cpp 22) and size 0. The new entry_t constructor stamps all
three timestamps with the current time. -/
def vram_create (root : EntryT) (path : String) (now : Nat) : Int × EntryT :=
  match index_find root path 7 with
  | Except.ok _ => (eEXIST, root)
  | Except.error _ =>
    let dir := (split_file_path path).1
    let file := (split_file_path path).2
    match index_find root dir 2 with
    | Except.error err => (err, root)
    | Except.ok _ =>
      let child : EntryT := EntryT.mk false "" 436 0 now now now []
      (0, updateAt root (getlineParts (dir.toList.drop 1)) (fun p => touchAndInsert p now file child))

/-- Model of vram_mkdir (vramfs.cpp 339-361): fail with EEXIST when any entry
already exists, otherwise insert a fresh directory entry with the dir flag
set, mode DEFAULT_DIR_MODE (0775, vramfs.cpp 23) and the default entry size
4096. -/
def vram_mkdir (root : EntryT) (path : String) (now : Nat) : Int × EntryT :=
  match index_find root path 7 with
  | Except.ok _ => (eEXIST, root)
  | Except.error _ =>
    let dir := (split_file_path path).1
    let name := (split_file_path path).2
    match index_find root dir 2 with
    | Except.error err => (err, root)
    | Except.ok _ =>
      let child : EntryT := EntryT.mk true "" 509 4096 now now now []
      (0, updateAt root (getlineParts (dir.toList.drop 1)) (fun p => touchAndInsert p now name child))

/-- Model of vram_symlink (vramfs.cpp 367-390): fail with EEXIST when any
entry already exists, otherwise insert a fresh symlink entry carrying the
target, with size equal to the target length; the mode field keeps the
entry_t default 0. -/
def vram_symlink (root : EntryT) (target path : String) (now : Nat) : Int × EntryT :=
  match index_find root path 7 with
  | Except.ok _ => (eEXIST, root)
  | Except.error _ =>
    let dir := (split_file_path path).1
    let name := (split_file_path path).2
    match index_find root dir 2 with
    | Except.error err => (err, root)
    | Except.ok _ =>
      let child : EntryT := EntryT.mk false target 0 target.length now now now []
      (0, updateAt root (getlineParts (dir.toList.drop 1)) (fun p => touchAndInsert p now name child))

/-- The stat structure fields vram_getattr fills. -/
structure StatRec where
  st_mode : Nat
  st_nlink : Nat
  st_size : Nat
  st_atime : Nat
  st_mtime : Nat
  st_ctime : Nat

/-- Model of vram_getattr (vramfs.cpp 198-227): resolve with the full filter
and report the stat fields; directories report S_IFDIR with their mode bits
and nlink 2, files report S_IFREG with their mode bits, and symlinks report
S_IFLNK with mode bits 0777 hard-coded (vramfs.cpp 215). -/
def vram_getattr (root : EntryT) (path : String) : Except Int StatRec :=
  match index_find root path 7 with
  | Except.error err => Except.error err
  | Except.ok e =>
    Except.ok
      { st_mode :=
          if e.isDir then 16384 ||| e.mode
          else if e.target.length = 0 then 32768 ||| e.mode
          else 40960 ||| 511,
        st_nlink := if e.isDir then 2 else 1,
        st_size := e.esize,
        st_atime := e.atime, st_mtime := e.mtime, st_ctime := e.ctime }

/-- The default mode assigned by the file_t constructor (file.cpp 21-23:
mode = 0644). -/
def file_t_default_mode : Nat := 420

/-- The default mode assigned by the dir_t constructor (dir.cpp 14-16:
mode = 0755). -/
def dir_t_default_mode : Nat := 493

/-- The error code carried by a find result, 0 for success; mirrors the int
return convention of index_find. -/
def errOfFind : Except Int EntryT → Int
  | Except.error err => err
  | Except.ok _ => 0

/-- The success test on a find result, modelling err == 0 checks. -/
def exOk : Except Int EntryT → Bool
  | Except.ok _ => true
  | Except.error _ => false

/-- The mode of the named child of an entry, 0 when absent. -/
def childModeAt (e : EntryT) (name : String) : Nat :=
  match getChild e.children name with
  | some c => c.mode
  | none => 0

/-- The st_mode field vram_getattr reports for a path, 0 on error. -/
def getattrMode (root : EntryT) (path : String) : Nat :=
  match vram_getattr root path with
  | Except.ok s => s.st_mode
  | Except.error _ => 0

/-- The error table of the amended claim C2, written from its words with the
clause order of the claim: ENOENT when a symlink was expected but a file was
found; EISDIR when a directory was expected but a file was found; ENOTDIR
when a file was expected but a directory was found; EPERM when a symlink
operation targets a directory or the combination is unrecognized. -/
def amendedFindError (actual filter : Nat) : Int :=
  if actual = 1 ∧ filter &&& 4 ≠ 0 then eNOENT
  else if actual = 1 ∧ filter &&& 2 ≠ 0 then eISDIR
  else if actual = 2 ∧ filter &&& 1 ≠ 0 then eNOTDIR
  else ePERM

/- ===================== concrete fixtures ===================== -/

/-- A directory entry used as a resolved target in the find claims. -/
def c2_dir : EntryT := EntryT.mk true "" 509 4096 0 0 0 []

/-- A root whose child d is a directory. -/
def c2_root : EntryT := EntryT.mk true "" 0 4096 0 0 0 [("d", c2_dir)]

/-- A root whose child f is a regular file. -/
def c2_rootF : EntryT := EntryT.mk true "" 0 4096 0 0 0 [("f", EntryT.mk false "" 436 0 0 0 0 [])]

/-- A root whose child a is a regular file. -/
def c4_rootA : EntryT := EntryT.mk true "" 0 4096 0 0 0 [("a", EntryT.mk false "" 436 0 0 0 0 [])]

/-- A root whose child d is a directory. -/
def c4_rootD : EntryT := EntryT.mk true "" 0 4096 0 0 0 [("d", EntryT.mk true "" 509 4096 0 0 0 [])]

/-- An empty root directory, as vram_init builds it. -/
def c6_root0 : EntryT := EntryT.mk true "" 0 4096 0 0 0 []

/- ===================== claim theorems ===================== -/

/-- Claim C1, counterexample: with a pool of exactly 2 blocks, writing 300000
bytes at offset 0 into a fresh file returns minus ENOSPC, not the short count
262144 the claim states. -/
theorem write_pool_exhausted_not_short_count :
    (file_write (fileNew 0 0 0) 0 300000 2 5).1 = eNOSPC ∧
      (file_write (fileNew 0 0 0) 0 300000 2 5).1 ≠ 262144 := by
  decide

/-- Claim C1, amended: with a pool of exactly 2 blocks, the call
write(fh, 0, 300000) writes the two full blocks that fit (the block map gains
the offsets 0 and 131072, the file size becomes 262144 and the pool is
exhausted) but reports minus ENOSPC rather than a short count, and the
subsequent write(fh, 262144, 1) also returns minus ENOSPC. -/
theorem write_pool_exhausted_returns_enospc :
    (file_write (fileNew 0 0 0) 0 300000 2 5).1 = eNOSPC ∧
      (file_write (fileNew 0 0 0) 0 300000 2 5).2.1.fsize = 262144 ∧
      (file_write (fileNew 0 0 0) 0 300000 2 5).2.1.blocks = [0, 131072] ∧
      (file_write (fileNew 0 0 0) 0 300000 2 5).2.2 = 0 ∧
      (file_write ((file_write (fileNew 0 0 0) 0 300000 2 5).2.1) 262144 1
        ((file_write (fileNew 0 0 0) 0 300000 2 5).2.2) 6).1 = eNOSPC := by
  decide

/-- Claim C3: truncating a sparse file into a hole fails to drop the blocks
beyond the cut. The file below has populated blocks at offsets 0 and 262144
and size 300000; after truncate(100000) the first block-aligned offset at or
beyond the new size is 131072, yet the block at offset 262144 is still in the
map (and its offset is not below the new size), because delete_blocks looks
the aligned offset up with map.find, which misses in the hole and then erases
nothing. This contradicts the stated claim and the code comment on
delete_blocks, which promises to delete all blocks with a starting offset at
or beyond the cut. -/
theorem truncate_sparse_hole_leaves_block :
    (file_size_set (file_write ((file_write (fileNew 0 0 0) 0 131072 2 1).2.1) 262144 37856
        ((file_write (fileNew 0 0 0) 0 131072 2 1).2.2) 2).2.1 100000).blocks = [0, 262144] ∧
      (file_size_set (file_write ((file_write (fileNew 0 0 0) 0 131072 2 1).2.1) 262144 37856
        ((file_write (fileNew 0 0 0) 0 131072 2 1).2.2) 2).2.1 100000).fsize = 100000 ∧
      ceilAlign 100000 = 131072 ∧
      List.contains (file_size_set (file_write ((file_write (fileNew 0 0 0) 0 131072 2 1).2.1)
        262144 37856 ((file_write (fileNew 0 0 0) 0 131072 2 1).2.2) 2).2.1 100000).blocks
        262144 = true := by
  decide

/-- Claim C4, counterexample: vram_create on a path where a file already
exists returns EEXIST, not success after an unlink; and on a path where a
directory exists it also returns EEXIST, not EISDIR. -/
theorem create_existing_entry_not_unlinked :
    (vram_create c4_rootA "/a" 5).1 = eEXIST ∧ (vram_create c4_rootA "/a" 5).1 ≠ 0 ∧
      (vram_create c4_rootD "/d" 5).1 = eEXIST ∧ (vram_create c4_rootD "/d" 5).1 ≠ eISDIR := by
  decide

/-- Claim C4, amended: whenever any entry already exists at the path, whether
a file, a directory or a symlink, vram_create fails with EEXIST and leaves
the tree unchanged. -/
theorem create_existing_entry_eexist (root : EntryT) (path : String) (now : Nat)
    (h : exOk (index_find root path 7) = true) :
    vram_create root path now = (eEXIST, root) := by
  rcases hidx : index_find root path 7 with err | e
  · rw [hidx] at h
    simp [exOk] at h
  · simp [vram_create, hidx]

/-- Witness for the amended claim C4 at a concrete input: a file already
exists at the path a. -/
theorem create_existing_entry_eexist_witness :
    exOk (index_find c4_rootA "/a" 7) = true ∧
      vram_create c4_rootA "/a" 5 = (eEXIST, c4_rootA) :=
  ⟨by decide, create_existing_entry_eexist c4_rootA "/a" 5 (by decide)⟩

/-- Claim C6, counterexample: a file created through the facade gets mode
0664 (decimal 436) from DEFAULT_FILE_MODE, not 0644 (decimal 420). -/
theorem creation_file_mode_not_0644 :
    childModeAt (vram_create c6_root0 "/c" 1).2 "c" = 436 ∧
      childModeAt (vram_create c6_root0 "/c" 1).2 "c" ≠ file_t_default_mode := by
  decide

/-- Claim C6, amended: files created through the facade vram_create get mode
0664 and directories created through vram_mkdir get 0775, while the file_t
and dir_t constructors of the class-based incarnation default to 0644 and
0755; symlinks are reported by getattr with type S_IFLNK and mode bits 0777
(st_mode 41471). -/
theorem creation_modes_in_code :
    childModeAt (vram_create c6_root0 "/c" 1).2 "c" = 436 ∧
      childModeAt (vram_mkdir c6_root0 "/d" 1).2 "d" = 509 ∧
      file_t_default_mode = 420 ∧
      dir_t_default_mode = 493 ∧
      getattrMode (vram_symlink c6_root0 "alpha" "/l" 1).2 "/l" = 41471 := by
  decide

/-- Claim C7, counterexample: increase_pool computes the block count in a C
int; at byte_size two to the 48 the count ceil(byte_size divided by the block
size) equals two to the 31, which narrows to the negative int value, so the
loop runs zero times instead of the 2147483648 attempts the claim requires,
no buffer is allocated, and the returned value is the wrapped size_t product
18446462598732840960 instead of 0 times the block size. -/
theorem increase_pool_blockcount_overflow :
    increase_pool (fun _ => true) 281474976710656 = (18446462598732840960, 0) ∧
      (18446462598732840960 : Nat) ≠ 131072 * 2147483648 := by
  decide

/-- Claim C8, counterexample: a write of 5 bytes at offset 100 into an empty
file with an exhausted pool writes zero bytes and returns minus ENOSPC, yet
the file size changes from 0 to 100, contradicting the claim that the size is
bumped only if bytes were written. -/
theorem write_failed_alloc_changes_size :
    (file_write (fileNew 0 0 0) 100 5 0 7).1 = eNOSPC ∧
      (file_write (fileNew 0 0 0) 100 5 0 7).2.1.fsize = 100 ∧
      (file_write (fileNew 0 0 0) 100 5 0 7).2.1.fsize ≠ (fileNew 0 0 0).fsize := by
  decide

/-- Helper: the variant index_find derives is always one of the three
entry_type bit values. -/
theorem variantOf_mem (e : EntryT) :
    variantOf e = 1 ∨ variantOf e = 2 ∨ variantOf e = 4 := by
  unfold variantOf
  split
  · right; right; rfl
  · split
    · right; left; rfl
    · left; rfl

/-- Helper: over the filters the program uses (subsets of the all mask), the
error table of index_find agrees with the table of the amended claim C2 and
never falls through to success when the filter excludes the found variant. -/
theorem find_type_error_eq_amended (a f : Nat)
    (ha : a = 1 ∨ a = 2 ∨ a = 4) (hf : f < 8) (hnz : f &&& 7 ≠ 0) (hx : a &&& f = 0) :
    find_type_error a f = amendedFindError a f ∧ find_type_error a f ≠ 0 := by
  rcases ha with rfl | rfl | rfl <;> interval_cases f <;> revert hnz hx <;> decide

/-- Claim C2, counterexample: resolving a directory with the file filter
returns ENOTDIR where the claim demands EISDIR, and resolving a file with the
directory filter returns EISDIR where the claim demands ENOTDIR; the two
middle rows of the claimed error table are swapped relative to the code. -/
theorem find_filter_errors_swapped :
    errOfFind (index_find c2_root "/d" 1) = eNOTDIR ∧
      errOfFind (index_find c2_root "/d" 1) ≠ eISDIR ∧
      errOfFind (index_find c2_rootF "/f" 2) = eISDIR ∧
      errOfFind (index_find c2_rootF "/f" 2) ≠ eNOTDIR := by
  decide

/-- Claim C2, amended: for every path resolution in which the filter excludes
the variant of the entry that was found, the returned error is exactly:
ENOENT when a symlink was expected but a file was found; EISDIR when a
directory was expected but a file was found; ENOTDIR when a file was expected
but a directory was found; EPERM when a symlink operation targets a directory
or the combination is unrecognized. -/
theorem find_filter_error_table (root : EntryT) (path : String) (filter : Nat) (e : EntryT)
    (hf : filter < 8) (hnz : filter &&& 7 ≠ 0)
    (hres : resolveParts root (getlineParts (path.toList.drop 1)) = Except.ok e)
    (hx : variantOf e &&& filter = 0) :
    index_find root path filter = Except.error (amendedFindError (variantOf e) filter) := by
  obtain ⟨heq, hne⟩ := find_type_error_eq_amended (variantOf e) filter (variantOf_mem e) hf hnz hx
  unfold index_find
  rw [if_neg hnz, hres]
  simp only [hx, if_pos]
  rw [if_neg hne, heq]

/-- Witness for the amended claim C2 at a concrete input: the file filter
applied to a path that resolves to a directory. -/
theorem find_filter_error_table_witness :
    (1 : Nat) < 8 ∧ (1 : Nat) &&& 7 ≠ 0 ∧
      resolveParts c2_root (getlineParts (("/d").toList.drop 1)) = Except.ok c2_dir ∧
      variantOf c2_dir &&& 1 = 0 ∧
      index_find c2_root "/d" 1 = Except.error (amendedFindError (variantOf c2_dir) 1) :=
  ⟨by decide, by decide, by rfl, by decide,
    find_filter_error_table c2_root "/d" 1 c2_dir (by decide) (by decide) (by rfl) (by decide)⟩

/-- Claim C5: while the dirty flag of a block is set, which holds from
construction until the first write, a read fills the destination with zeros
without touching the device buffer, and a first write whose size differs from
the block size zero-fills the entire buffer before placing the written bytes,
after which dirty is cleared. -/
theorem block_dirty_read_zeros_write_zerofill (b : Blk) (off n off2 : Nat) (src l : List Nat)
    (hd : b.dirty = true) (hs : src.length ≠ block_size) :
    blkRead b off n = List.replicate n 0 ∧
      (blkWrite b off2 src).buf =
        clear_buffer_model.take off2 ++ src ++ clear_buffer_model.drop (off2 + src.length) ∧
      (blkWrite b off2 src).dirty = false ∧
      (blkInit l).dirty = true := by
  refine ⟨?_, ?_, rfl, rfl⟩
  · simp [blkRead, hd]
  · simp [blkWrite, hd, hs]

/-- Witness for claim C5 at a concrete input: a block freshly constructed
over a leftover buffer, read over two bytes and written with one byte. -/
theorem block_dirty_read_zeros_write_zerofill_witness :
    (blkInit [5, 6]).dirty = true ∧ ([9] : List Nat).length ≠ block_size ∧
      (blkRead (blkInit [5, 6]) 0 2 = List.replicate 2 0 ∧
        (blkWrite (blkInit [5, 6]) 1 [9]).buf =
          clear_buffer_model.take 1 ++ [9] ++
            clear_buffer_model.drop (1 + ([9] : List Nat).length) ∧
        (blkWrite (blkInit [5, 6]) 1 [9]).dirty = false ∧
        (blkInit ([] : List Nat)).dirty = true) :=
  ⟨rfl, by decide,
    block_dirty_read_zeros_write_zerofill (blkInit [5, 6]) 0 2 1 [9] [] rfl (by decide)⟩

/-- Helper: the success count of a run of attempts never exceeds the number
of attempts. -/
theorem allocSuccesses_le (oracle : Nat → Bool) : ∀ (n i : Nat), allocSuccesses oracle i n ≤ n := by
  intro n
  induction n with
  | zero => intro i; simp [allocSuccesses]
  | succ m ih =>
    intro i
    unfold allocSuccesses
    split
    · have := ih (i + 1); omega
    · omega

/-- Helper: the allocation loop of increase_pool, started at attempt i with
the given trip count, completes exactly when every attempt succeeds, and
otherwise stops at the first failing attempt, reporting the byte product and
push count of the successes made so far. -/
theorem ipGo_spec (oracle : Nat → Bool) : ∀ (fuel i : Nat),
    ipGo oracle i fuel =
      if allocSuccesses oracle i fuel = fuel then none
      else some (((i + allocSuccesses oracle i fuel) * block_size) % 18446744073709551616,
        i + allocSuccesses oracle i fuel) := by
  intro fuel
  induction fuel with
  | zero => intro i; simp [ipGo, allocSuccesses]
  | succ m ih =>
    intro i
    unfold ipGo allocSuccesses
    by_cases h : oracle i = true
    · rw [if_pos h, if_pos h, ih (i + 1)]
      by_cases h2 : allocSuccesses oracle (i + 1) m = m
      · rw [if_pos h2, if_pos (by omega)]
      · rw [if_neg h2, if_neg (by omega)]
        have he : i + 1 + allocSuccesses oracle (i + 1) m =
            i + (allocSuccesses oracle (i + 1) m + 1) := by omega
        rw [he]
    · rw [if_neg h, if_neg h, if_neg (by omega)]
      simp

/-- Claim C7, amended: for every byte_size up to (2 to the 31 minus 1) blocks,
which includes byte_size 0, increase_pool attempts exactly
ceil(byte_size / block_size) buffer allocations, each zero-filled, stops at
the first failure, and both returns the cumulative bytes of the successes and
pushes exactly that many buffers; beyond that bound the 32-bit block count
overflows and the function misbehaves, as the counterexample shows. -/
theorem increase_pool_returns_success_bytes (oracle : Nat → Bool) (size : Nat)
    (h : size ≤ 281474976579584) :
    increase_pool oracle size =
      (block_size * allocSuccesses oracle 0 ((size + 131071) / 131072),
        allocSuccesses oracle 0 ((size + 131071) / 131072)) := by
  by_cases hz : size = 0
  · subst hz
    rfl
  · have h1 : 1 ≤ size := Nat.one_le_iff_ne_zero.mpr hz
    have hbc1 : (size + 131071) / 131072 ≤ 2147483647 := by
      calc (size + 131071) / 131072 ≤ 281474976710655 / 131072 :=
            Nat.div_le_div_right (by omega)
        _ = 2147483647 := by norm_num
    have hkey : ip_block_count size = (((size + 131071) / 131072 : Nat) : Int) := by
      unfold ip_block_count
      rw [show size + (18446744073709551616 - 1) = (size - 1) + 1 * 18446744073709551616 by omega,
        Nat.add_mul_mod_self_right,
        Nat.mod_eq_of_lt (show size - 1 < 18446744073709551616 by omega)]
      have e2 : (size - 1) / block_size + 1 = (size + 131071) / 131072 := by
        rw [show block_size = 131072 from rfl,
          show size + 131071 = (size - 1) + 131072 by omega,
          Nat.add_div_right _ (by norm_num)]
      rw [e2, Nat.mod_eq_of_lt (by omega)]
      unfold toInt32
      rw [Nat.mod_eq_of_lt (by omega)]
      rw [if_pos (by omega)]
    unfold increase_pool
    rw [hkey, Int.toNat_natCast, ipGo_spec oracle ((size + 131071) / 131072) 0]
    by_cases hA : allocSuccesses oracle 0 ((size + 131071) / 131072) = (size + 131071) / 131072
    · rw [if_pos hA, Option.getD_none]
      unfold int32ToSizeT
      rw [Int.emod_eq_of_lt (by positivity) (by omega), Int.toNat_natCast, hA]
      have : (size + 131071) / 131072 * block_size % 18446744073709551616 =
          block_size * ((size + 131071) / 131072) := by
        rw [Nat.mod_eq_of_lt (by rw [show block_size = 131072 from rfl]; omega)]
        ring
      rw [this]
    · rw [if_neg hA, Option.getD_some]
      simp only [Nat.zero_add]
      have hAle : allocSuccesses oracle 0 ((size + 131071) / 131072) ≤ (size + 131071) / 131072 :=
        allocSuccesses_le oracle _ 0
      have : allocSuccesses oracle 0 ((size + 131071) / 131072) * block_size %
          18446744073709551616 =
          block_size * allocSuccesses oracle 0 ((size + 131071) / 131072) := by
        rw [Nat.mod_eq_of_lt (by rw [show block_size = 131072 from rfl]; omega)]
        ring
      rw [this]

/-- Witness for the amended claim C7 at a concrete input: a request of
200000 bytes with an oracle that succeeds once and then fails, which
allocates one block and returns 131072 bytes. -/
theorem increase_pool_returns_success_bytes_witness :
    (200000 : Nat) ≤ 281474976579584 ∧
      increase_pool (fun i => decide (i < 1)) 200000 =
        (block_size * allocSuccesses (fun i => decide (i < 1)) 0 ((200000 + 131071) / 131072),
          allocSuccesses (fun i => decide (i < 1)) 0 ((200000 + 131071) / 131072)) :=
  ⟨by decide, increase_pool_returns_success_bytes (fun i => decide (i < 1)) 200000 (by decide)⟩

/-- Claim C8, amended: when the write walk fails on its very first block
allocation, so zero bytes are written, the write still returns minus ENOSPC
and the file size still becomes the maximum of the old size and the starting
offset; the size is therefore unchanged for offsets at or below the old size
but the file is extended when the failed write starts beyond the end, and
beyond that only the timestamps change. -/
theorem write_failed_alloc_bumps_size_to_offset (f : FileSt) (off n now : Nat)
    (hmiss : f.blocks.contains (off / block_size * block_size) = false)
    (hn : 0 < n) :
    file_write f off n 0 now =
      (eNOSPC,
        { fsize := max f.fsize off, blocks := f.blocks, atime := f.atime,
          mtime := now, ctime := now, mode := f.mode, uid := f.uid, gid := f.gid },
        0) := by
  obtain ⟨m, rfl⟩ : ∃ m, n = m + 1 := ⟨n - 1, by omega⟩
  have hw : writeLoop f.blocks 0 off (off + (m + 1)) = (off, f.blocks, 0) := by
    unfold writeLoop
    rw [show off + (m + 1) - off = m + 1 by omega]
    unfold writeGo
    rw [if_pos (show off < off + (m + 1) by omega)]
    simp only [hmiss, Bool.false_eq_true, if_false, Nat.lt_irrefl]
  have hm : (if f.fsize < off then off else f.fsize) = max f.fsize off := by
    split <;> omega
  simp only [file_write, hw]
  rw [if_pos (show off < off + (m + 1) by omega), hm]

/-- Witness for the amended claim C8 at a concrete input: a write of 5 bytes
at offset 100 into an empty file with an empty pool. -/
theorem write_failed_alloc_bumps_size_to_offset_witness :
    (fileNew 0 0 0).blocks.contains (100 / block_size * block_size) = false ∧ (0 : Nat) < 5 ∧
      file_write (fileNew 0 0 0) 100 5 0 7 =
        (eNOSPC,
          { fsize := max (fileNew 0 0 0).fsize 100, blocks := (fileNew 0 0 0).blocks,
            atime := (fileNew 0 0 0).atime, mtime := 7, ctime := 7,
            mode := (fileNew 0 0 0).mode, uid := (fileNew 0 0 0).uid,
            gid := (fileNew 0 0 0).gid },
          0) :=
  ⟨by decide, by decide,
    write_failed_alloc_bumps_size_to_offset (fileNew 0 0 0) 100 5 7 (by decide) (by decide)⟩

/-- Claim C9: starting from the empty pool, after any sequence of pool
operations at rest, the length of the free list plus the number of live block
handles equals the pool size counter: increase_pool pushes as many buffers as
it counts, allocate moves exactly one buffer from the free list into a live
block, and every block destruction returns its buffer to the free list. -/
theorem pool_accounting_invariant (ops : List PoolOp) :
    (pool_run ops).free.length + (pool_run ops).live.length = (pool_run ops).total := by
  have hstep : ∀ (s : PoolSt) (op : PoolOp),
      s.free.length + s.live.length = s.total →
      (pool_step s op).free.length + (pool_step s op).live.length = (pool_step s op).total := by
    intro s op h
    cases op with
    | grow oracle size =>
      simp only [pool_step, List.length_append, List.length_range']
      omega
    | alloc =>
      rcases hfree : s.free.getLast? with _ | b
      · simpa [pool_step, hfree] using h
      · have hne : s.free ≠ [] := by
          intro hc
          rw [hc] at hfree
          simp at hfree
        have hlen : 1 ≤ s.free.length := List.length_pos.mpr hne
        simp only [pool_step, hfree, List.length_dropLast, List.length_cons]
        omega
    | drop b =>
      by_cases hb : b ∈ s.live
      · have hlen : 1 ≤ s.live.length := List.length_pos.mpr (List.ne_nil_of_mem hb)
        simp [pool_step, hb, List.length_erase_of_mem hb]
        omega
      · simpa [pool_step, hb] using h
  have hrun : ∀ (l : List PoolOp) (s : PoolSt),
      s.free.length + s.live.length = s.total →
      (l.foldl pool_step s).free.length + (l.foldl pool_step s).live.length =
        (l.foldl pool_step s).total := by
    intro l
    induction l with
    | nil => intro s h; simpa using h
    | cons op rest ih =>
      intro s h
      exact ih (pool_step s op) (hstep s op h)
  exact hrun ops pool_init rfl

/-- Claim C10: a file read with an offset below the file size returns the
clamped count min(size of file minus offset, requested count) and sets both
atime and ctime to the same current time while leaving the size, the block
map, mtime, mode and the owner untouched; a read at or past the file size
returns 0 and changes nothing. -/
theorem read_updates_atime_ctime_only (f : FileSt) (off n now : Nat) :
    (file_read f off n now).1 = (if off < f.fsize then min (f.fsize - off) n else 0) ∧
      (file_read f off n now).2.2 =
        (if off < f.fsize then
          { fsize := f.fsize, blocks := f.blocks, atime := now, mtime := f.mtime,
            ctime := now, mode := f.mode, uid := f.uid, gid := f.gid }
         else f) := by
  unfold file_read
  by_cases h : f.fsize ≤ off
  · rw [if_pos h, if_neg (by omega), if_neg (by omega)]
    exact ⟨rfl, rfl⟩
  · rw [if_neg h, if_pos (by omega), if_pos (by omega)]
    exact ⟨rfl, rfl⟩
